import Mathlib

/-!
Verification of the weaving inspection rig against its specification.

The development shallowly embeds the Python sources in Lean 4:

* Python floats are idealised as exact rationals (`ℚ`); `round(x, n)` is
  modelled as round-half-to-even at `n` decimal places (`py_round`).
* Stateful objects (`CamerasController`, `VelocityGenerator`) become explicit
  state records with pure transition functions; an operation that raises an
  exception returns an error result and the state it left behind.
* Randomness (outlier rolls, uniform draws) is passed in explicitly as data.
* Real-time sleeps and thread scheduling are not modelled; the sampling loop of
  `get_velocity_and_displacement` is represented by the list of samples the
  sensor returned, and lock-protected camera operations are modelled as atomic
  steps of a transition system, so a concurrent history is an arbitrary
  interleaving, i.e. an arbitrary sequence of atomic operations.
-/

/-! ## Numeric model: Python `round(x, n)` on exact rationals -/

/-- Round a rational to the nearest integer, ties to even — the rounding used
by Python's builtin `round`. -/
def round_half_even (q : ℚ) : ℤ :=
  let f : ℤ := ⌊q⌋
  let r : ℚ := q - (f : ℚ)
  if r < 1/2 then f
  else if 1/2 < r then f + 1
  else if f % 2 = 0 then f else f + 1

/-- Model of Python `round(q, ndigits)` for nonnegative `ndigits`. -/
def py_round (q : ℚ) (ndigits : ℕ) : ℚ :=
  (round_half_even (q * 10 ^ ndigits) : ℚ) / 10 ^ ndigits

/-! ## Constants of `main.py` -/

/-- Constant `DECIMAL_PLACES = 3` from `main.py`. -/
def DECIMAL_PLACES : ℕ := 3

/-- Constant `VELOCITY_SAMPLES_PER_SECOND = 66` from `main.py`. -/
def VELOCITY_SAMPLES_PER_SECOND : ℕ := 66

/-- Constant `CAMERAS_VERTICAL_VIEW_FIELD = 25` from `main.py`. -/
def CAMERAS_VERTICAL_VIEW_FIELD : ℚ := 25

/-- Constant `MINIMUN_CAMERA_FREQUENCY = 0.001` from `main.py`
(the source spells it this way). -/
def MINIMUN_CAMERA_FREQUENCY : ℚ := 1/1000

/-! ## `main.moving_average`

`moving_average(data, window_size)` returns `data` unchanged when
`len(data) < window_size` and otherwise
`numpy.convolve(data, numpy.ones(window_size) / window_size, mode='valid')`.
`convolve_valid` embeds numpy's valid-mode convolution for
`a.length ≥ v.length`: entry `n` is `Σ_j a[n+j] * v[v.length-1-j]`. -/

/-- Valid-mode discrete convolution (`numpy.convolve(a, v, mode='valid')`)
for `v.length ≤ a.length`. -/
def convolve_valid (a v : List ℚ) : List ℚ :=
  (List.range (a.length + 1 - v.length)).map (fun n =>
    ((List.range v.length).map
      (fun j => a.getD (n + j) 0 * v.getD (v.length - 1 - j) 0)).sum)

/-- Embedding of `main.moving_average`. -/
def moving_average (data : List ℚ) (window_size : ℕ) : List ℚ :=
  if data.length < window_size then
    data
  else
    convolve_valid data (List.replicate window_size ((1 : ℚ) / window_size))

/-! ## `main.calculate_displacement` -/

/-- Embedding of `main.calculate_displacement`: raises `ValueError` for fewer
than two samples, otherwise accumulates `0.5 * (v[i-1] + v[i]) * time_interval`
for `i in range(1, len(velocity_data))` and rounds to `DECIMAL_PLACES`. -/
def calculate_displacement (velocity_data : List ℚ) (time_interval : ℚ) :
    Except String ℚ :=
  if velocity_data.length < 2 then
    .error "Insufficient data to calculate displacement."
  else
    .ok (py_round
      ((List.range' 1 (velocity_data.length - 1)).foldl
        (fun displacement i =>
          displacement +
            1/2 * (velocity_data.getD (i - 1) 0 + velocity_data.getD i 0) *
              time_interval)
        0)
      DECIMAL_PLACES)

/-! ## `main.get_velocity_and_displacement`

The polling loop (sleep `1/66` s between reads, stop at
`time_interval * VELOCITY_SAMPLES_PER_SECOND` samples or on a `None` read) is
represented by the list of samples it gathered; the function then smooths with
`moving_average(·, 3)`, reports the last smoothed value rounded to
`DECIMAL_PLACES` (`filtered_velocity[-1]` raises `IndexError` on an empty
sequence), and calls `calculate_displacement` with the *whole* measurement
interval as the per-pair time step. -/

/-- Embedding of `main.get_velocity_and_displacement`, parameterised by the
samples the velocity controller returned during the polling loop. -/
def get_velocity_and_displacement (velocity_samples : List ℚ)
    (time_interval : ℚ) : Except String (ℚ × ℚ) :=
  let filtered_velocity := moving_average velocity_samples 3
  match filtered_velocity.getLast? with
  | none => .error "IndexError"
  | some v_last =>
    match calculate_displacement filtered_velocity time_interval with
    | .error e => .error e
    | .ok displacement => .ok (py_round v_last DECIMAL_PLACES, displacement)

/-! ## `main.find_optimal_frequency`

The source loops forever: measure displacement at the candidate frequency,
return `round(frequency, DECIMAL_PLACES)` when the displacement fits in
`CAMERAS_VERTICAL_VIEW_FIELD`, otherwise decrement by `0.05` and return
`MINIMUN_CAMERA_FREQUENCY` once the candidate falls below it.  The measured
displacement at each candidate frequency (a live-sensor quantity) is abstracted
as a function `disp : ℚ → ℚ` of the frequency.  The loop is embedded with
explicit fuel; from the entry point `frequency = 1` it performs at most 20
iterations (candidates `1 - k/20`, `k = 0..19`), which the fuel lemmas below
make precise. -/

/-- One fuel-indexed unfolding of the `while True` loop of
`main.find_optimal_frequency`. -/
def find_optimal_frequency_go (disp : ℚ → ℚ) : ℕ → ℚ → ℚ
  | 0, frequency => py_round frequency DECIMAL_PLACES
  | fuel + 1, frequency =>
    if disp frequency ≤ CAMERAS_VERTICAL_VIEW_FIELD then
      py_round frequency DECIMAL_PLACES
    else
      if frequency - 1/20 < MINIMUN_CAMERA_FREQUENCY then
        MINIMUN_CAMERA_FREQUENCY
      else
        find_optimal_frequency_go disp fuel (frequency - 1/20)

/-- Embedding of `main.find_optimal_frequency` (fuel 20 suffices from the
start value 1; see the fuel lemma proved below). -/
def find_optimal_frequency (disp : ℚ → ℚ) : ℚ :=
  find_optimal_frequency_go disp 20 1

/-- Number of displacement measurements (loop iterations) performed by
`main.find_optimal_frequency`, with the same fuel discipline as
`find_optimal_frequency_go`. -/
def find_optimal_frequency_steps (disp : ℚ → ℚ) : ℕ → ℚ → ℕ
  | 0, _ => 0
  | fuel + 1, frequency =>
    if disp frequency ≤ CAMERAS_VERTICAL_VIEW_FIELD then
      1
    else
      if frequency - 1/20 < MINIMUN_CAMERA_FREQUENCY then
        1
      else
        1 + find_optimal_frequency_steps disp fuel (frequency - 1/20)

/-- Concrete displacement input used to probe the frequency scan's step
bound: strictly monotone in the frequency, so displacement decreases
monotonically along the scan's decreasing candidates, and it exceeds the
field of view at every scanned candidate. -/
def cex_disp : ℚ → ℚ := fun frequency => 25 + frequency

/-! ## `CamerasController`

State: the `_cameras_ready` flag set by `open_cameras` and the consumable
`_trigger` event.  Every public operation runs under the controller's locks, so
each is modelled as one atomic step.  `collect_pictures` looks the picture
assets up *before* clearing the trigger; a missing asset raises
`PictureNotFoundError` at that point (parameter `assets_present` tells whether
the picture files exist).  The returned picture tuple and its randomised
metadata play no role in any claim and are abstracted to the `pictures`
result. -/

/-- Observable result of one `CamerasController` operation: the boolean
returns of `trigger`, a successful picture collection, or a raised
exception (`CamerasNotReadyError`, `PictureNotReadyError`,
`PictureNotFoundError`). -/
inductive CamResult
  | trig_true
  | trig_false
  | pictures
  | err_cameras_not_ready
  | err_picture_not_ready
  | err_picture_not_found
  deriving DecidableEq, Repr

/-- State of a `CamerasController`: `_cameras_ready` and the `_trigger`
event. -/
structure CamState where
  cameras_ready : Bool
  trigger_set : Bool
  deriving DecidableEq, Repr

/-- State of a freshly constructed `CamerasController`. -/
def CamerasController.init : CamState :=
  { cameras_ready := false, trigger_set := false }

/-- Embedding of `CamerasController.open_cameras`. -/
def open_cameras (s : CamState) : CamState :=
  { s with cameras_ready := true }

/-- Embedding of `CamerasController.trigger`: raises `CamerasNotReadyError`
when not open, returns `False` when the previous trigger was not consumed,
otherwise sets the trigger and returns `True`. -/
def trigger (s : CamState) : CamState × CamResult :=
  if s.cameras_ready = false then
    (s, .err_cameras_not_ready)
  else if s.trigger_set then
    (s, .trig_false)
  else
    ({ s with trigger_set := true }, .trig_true)

/-- Embedding of `CamerasController.collect_pictures`: raises
`CamerasNotReadyError` when not open, raises `PictureNotReadyError` when the
trigger is not set, raises `PictureNotFoundError` from `_get_pictures` /
`_create_picture_filepath` when a picture asset is missing (before the trigger
is cleared), and otherwise clears the trigger and returns the pictures. -/
def collect_pictures (assets_present : Bool) (s : CamState) :
    CamState × CamResult :=
  if s.cameras_ready = false then
    (s, .err_cameras_not_ready)
  else if s.trigger_set = false then
    (s, .err_picture_not_ready)
  else if assets_present = false then
    (s, .err_picture_not_found)
  else
    ({ s with trigger_set := false }, .pictures)

/-- A camera operation requested by some caller. -/
inductive CamOp
  | trig
  | coll
  deriving DecidableEq, Repr

/-- Apply one atomic camera operation. -/
def cam_step (assets_present : Bool) (s : CamState) : CamOp → CamState × CamResult
  | .trig => trigger s
  | .coll => collect_pictures assets_present s

/-- Run a sequence of atomic camera operations (an arbitrary interleaving of
concurrent callers, since both operations hold `_trigger_lock`), returning the
final state and the result each call observed. -/
def cam_run (assets_present : Bool) (s : CamState) :
    List CamOp → CamState × List CamResult
  | [] => (s, [])
  | op :: ops =>
    ((cam_run assets_present (cam_step assets_present s op).1 ops).1,
      (cam_step assets_present s op).2 ::
        (cam_run assets_present (cam_step assets_present s op).1 ops).2)

/-! ## The image-capture loop of `main.capture_images`

The loop body is `try: for light_type in [GREEN, BLUE]: trigger; collect; …
spawn the send thread  except PictureNotReadyError: log a warning
finally: sleep(frequency)`.  Only `PictureNotReadyError` is caught; any other
exception propagates and terminates the loop. -/

/-- Outcome of one iteration of the capture loop: batch handed to the send
thread then sleep, caught `PictureNotReadyError` logged as a warning then
sleep, or an uncaught exception terminating the loop. -/
inductive LoopStep
  | send_and_sleep
  | warn_and_sleep
  | raised (e : CamResult)
  deriving DecidableEq, Repr

/-- Embedding of the `except PictureNotReadyError` clause of
`main.capture_images`: applied to what the `try` block produced. -/
def capture_except_handler (r : Except CamResult Unit) : LoopStep :=
  match r with
  | .ok _ => .send_and_sleep
  | .error .err_picture_not_ready => .warn_and_sleep
  | .error e => .raised e

/-- One `trigger(); collect_pictures(light_type)` pair of the capture loop
body (the boolean result of `trigger` is ignored by the source; an exception
from either call aborts the body). -/
def capture_one_light (assets_present : Bool) (s : CamState) :
    CamState × Except CamResult Unit :=
  if (trigger s).2 = .err_cameras_not_ready then
    ((trigger s).1, .error .err_cameras_not_ready)
  else
    match collect_pictures assets_present (trigger s).1 with
    | (s₂, .pictures) => (s₂, .ok ())
    | (s₂, e) => (s₂, .error e)

/-- The `try` block of the capture loop body: the two light types
(GREEN then BLUE) in order. -/
def capture_body (assets_present : Bool) (s : CamState) :
    CamState × Except CamResult Unit :=
  match capture_one_light assets_present s with
  | (s₁, .error e) => (s₁, .error e)
  | (s₁, .ok _) => capture_one_light assets_present s₁

/-- One full iteration of the capture loop: `try` block plus exception
handler. -/
def capture_cycle (assets_present : Bool) (s : CamState) : CamState × LoopStep :=
  ((capture_body assets_present s).1,
    capture_except_handler (capture_body assets_present s).2)

/-- Whether the loop keeps running after this iteration (only an uncaught
exception terminates it). -/
def loop_continues : LoopStep → Bool
  | .raised _ => false
  | _ => true

/-! ## `main.get_light` and the per-image displacement bookkeeping

`capture_images` initialises `last_capture_time = time.time()` before the loop
and never reassigns it there; `get_light` receives it as a parameter and the
`last_capture_time = current_time` assignment inside `get_light` rebinds only
the local parameter (Python scoping), so every call observes the initial
value.  Velocity and capture time are environment inputs, passed explicitly.
The picture payloads and metadata are irrelevant to the displacement claims
and are omitted from the record. -/

/-- Light types of the capture loop. -/
inductive LightType
  | green
  | blue
  deriving DecidableEq, Repr

/-- The displacement-relevant fields of the dict `main.get_light` builds. -/
structure CapturedLight where
  light : LightType
  surface_velocity : ℚ
  surface_displacement : ℚ
  deriving DecidableEq, Repr

/-- Environment of one `get_light` call: which light, the velocity the sensor
returned, and the wall-clock time of the call. -/
structure CaptureEvent where
  light : LightType
  velocity : ℚ
  time : ℚ
  deriving DecidableEq, Repr

/-- Embedding of `main.get_light`: displacement is
`velocity * (current_time - last_capture_time)`. -/
def get_light (light_type : LightType) (velocity current_time
    last_capture_time : ℚ) : CapturedLight :=
  { light := light_type
    surface_velocity := velocity
    surface_displacement := velocity * (current_time - last_capture_time) }

/-- The lights assembled by `main.capture_images` across a run, as the code
behaves: the enclosing `last_capture_time` is initialised once and never
reassigned (the rebinding inside `get_light` is local), so every call uses
`initial_time`. -/
def capture_images_lights (initial_time : ℚ) (events : List CaptureEvent) :
    List CapturedLight :=
  events.map (fun e => get_light e.light e.velocity e.time initial_time)

/-- Modelled from the spec: the claim's reading of the capture loop, in which
the reference timestamp advances to the current capture time after each image,
so each displacement is `velocity * (time - previous event's time)`. -/
def capture_images_lights_advancing (initial_time : ℚ)
    (events : List CaptureEvent) : List CapturedLight :=
  (events.foldl
    (fun (acc : List CapturedLight × ℚ) e =>
      (acc.1 ++ [get_light e.light e.velocity e.time acc.2], e.time))
    ([], initial_time)).1

/-! ## `VelocityGenerator`

State: the fields set by `__init__` that the claims touch (`_current_value`,
`_noisy_value`, `noise_coefficient`, `_run_thread`; the sleep interval and the
thread handle are real-time artefacts and are not modelled).  `get_velocity`
consumes three random draws per call: the outlier roll (`random()`), the
outlier-at-zero roll (`random()`), and the uniform outlier value
(`uniform(-150, 400)`); they are passed in explicitly.  `get_velocity` is a
total function of the draws and the state — it raises nothing. -/

/-- Modelled state of a `VelocityGenerator`. -/
structure VGState where
  current_value : ℚ
  noisy_value : ℚ
  noise_coefficient : ℚ
  run_thread : Bool
  deriving DecidableEq, Repr

/-- Constant `_OUTLIER_PROBABILITY = 0.1`. -/
def VelocityGenerator.OUTLIER_PROBABILITY : ℚ := 1/10

/-- Constant `_OUTLIER_AT_ZERO_PROBABILITY = 0.3`. -/
def VelocityGenerator.OUTLIER_AT_ZERO_PROBABILITY : ℚ := 3/10

/-- State of a freshly constructed `VelocityGenerator` (`__init__`). -/
def VelocityGenerator.init : VGState :=
  { current_value := 0, noisy_value := 0, noise_coefficient := 5,
    run_thread := false }

/-- Random draws consumed by one `get_velocity` call. -/
structure ReadDraws where
  outlier_roll : ℚ
  zero_roll : ℚ
  outlier_value : ℚ
  deriving DecidableEq, Repr

/-- Embedding of `VelocityGenerator._is_outlier`. -/
def VelocityGenerator.is_outlier (roll : ℚ) : Bool :=
  roll < VelocityGenerator.OUTLIER_PROBABILITY

/-- Embedding of `VelocityGenerator._get_outlier_velocity`. -/
def VelocityGenerator.get_outlier_velocity (zero_roll outlier_value : ℚ) : ℚ :=
  if zero_roll < VelocityGenerator.OUTLIER_AT_ZERO_PROBABILITY then 0
  else outlier_value

/-- Embedding of `VelocityGenerator.get_velocity`: per-call outlier injection,
otherwise the current noisy value.  Total — never raises. -/
def VelocityGenerator.get_velocity (d : ReadDraws) (s : VGState) : ℚ :=
  if VelocityGenerator.is_outlier d.outlier_roll then
    VelocityGenerator.get_outlier_velocity d.zero_roll d.outlier_value
  else
    s.noisy_value

/-- Embedding of `VelocityGenerator.start_generator` on the modelled state
(it flips `_run_thread` and spawns the generation thread). -/
def VelocityGenerator.start_generator (s : VGState) : VGState :=
  { s with run_thread := true }

/-- Embedding of `VelocityGenerator.stop_generator`: only clears
`_run_thread`; no other field is touched. -/
def VelocityGenerator.stop_generator (s : VGState) : VGState :=
  { s with run_thread := false }

/-! # Theorems -/

/-! ## Camera trigger protocol (C1, C2, C3, C8) -/

/-- Helper: an operation on an armed controller never reports a successful
trigger; it either collects the pictures or leaves the state unchanged. -/
theorem cam_step_armed (a : Bool) (op : CamOp) (s : CamState)
    (hs : s.trigger_set = true) :
    (cam_step a s op).2 = CamResult.pictures ∨
      ((cam_step a s op).1 = s ∧ (cam_step a s op).2 ≠ CamResult.trig_true) := by
  rcases s with ⟨cr, ts⟩
  have hts : ts = true := hs
  subst hts
  cases op <;> cases cr <;> cases a <;>
    simp [cam_step, trigger, collect_pictures]

/-- Helper: an operation reporting a successful trigger leaves the controller
armed. -/
theorem cam_step_trig_true (a : Bool) (op : CamOp) (s : CamState)
    (h : (cam_step a s op).2 = CamResult.trig_true) :
    (cam_step a s op).1.trigger_set = true := by
  rcases s with ⟨cr, ts⟩
  cases op <;> cases cr <;> cases ts <;> cases a <;>
    simp_all [cam_step, trigger, collect_pictures]

/-- Helper: starting from an armed controller, any successful trigger observed
in a run is preceded by a successful collection. -/
theorem cam_run_armed_pictures (a : Bool) :
    ∀ (ops : List CamOp) (s : CamState), s.trigger_set = true →
      ∀ j : ℕ, ((cam_run a s ops).2)[j]? = some CamResult.trig_true →
        ∃ k, k < j ∧ ((cam_run a s ops).2)[k]? = some CamResult.pictures := by
  intro ops
  induction ops with
  | nil =>
    intro s hs j hj
    simp [cam_run] at hj
  | cons op ops ih =>
    intro s hs j hj
    rcases cam_step_armed a op s hs with hpic | ⟨hst, hne⟩
    · cases j with
      | zero => simp [cam_run, hpic] at hj
      | succ j' => exact ⟨0, Nat.succ_pos _, by simp [cam_run, hpic]⟩
    · cases j with
      | zero =>
        simp [cam_run] at hj
        exact absurd hj hne
      | succ j' =>
        simp only [cam_run, List.getElem?_cons_succ] at hj
        rw [hst] at hj
        obtain ⟨k, hk, hpk⟩ := ih s hs j' hj
        refine ⟨k + 1, Nat.succ_lt_succ hk, ?_⟩
        simp only [cam_run, List.getElem?_cons_succ]
        rw [hst]
        exact hpk

/-- C1: the camera trigger is a single consumable flag.  On an opened, idle
controller, two consecutive `trigger()` calls return `True` then `False`
(the second arm request is rejected, not queued); after a successful
`collect_pictures()` the state is idle again, so `trigger()` succeeds again;
and in any sequence of atomic (lock-protected) operations — hence under any
interleaving of concurrent callers — two successful `trigger()` results are
always separated by a successful collection. -/
theorem C1_trigger_single_consumable_flag :
    (∀ s : CamState, s.cameras_ready = true → s.trigger_set = false →
      (trigger s).2 = CamResult.trig_true ∧
        (trigger (trigger s).1).2 = CamResult.trig_false) ∧
    (∀ (a : Bool) (s : CamState),
      (collect_pictures a s).2 = CamResult.pictures →
      (trigger (collect_pictures a s).1).2 = CamResult.trig_true) ∧
    (∀ (a : Bool) (ops : List CamOp) (s : CamState) (i j : ℕ), i < j →
      ((cam_run a s ops).2)[i]? = some CamResult.trig_true →
      ((cam_run a s ops).2)[j]? = some CamResult.trig_true →
      ∃ k, i < k ∧ k < j ∧
        ((cam_run a s ops).2)[k]? = some CamResult.pictures) := by
  refine ⟨?_, ?_, ?_⟩
  · intro s h1 h2
    rcases s with ⟨cr, ts⟩
    have hcr : cr = true := h1
    have hts : ts = false := h2
    subst hcr hts
    simp [trigger]
  · intro a s h
    rcases s with ⟨cr, ts⟩
    cases a <;> cases cr <;> cases ts <;> simp_all [trigger, collect_pictures]
  · intro a ops
    induction ops with
    | nil =>
      intro s i j hij hi hj
      simp [cam_run] at hi
    | cons op ops ih =>
      intro s i j hij hi hj
      cases i with
      | zero =>
        cases j with
        | zero => omega
        | succ j' =>
          simp [cam_run] at hi
          have harm := cam_step_trig_true a op s hi
          simp only [cam_run, List.getElem?_cons_succ] at hj
          obtain ⟨k, hk, hpk⟩ := cam_run_armed_pictures a ops _ harm j' hj
          refine ⟨k + 1, Nat.succ_pos _, Nat.succ_lt_succ hk, ?_⟩
          simpa only [cam_run, List.getElem?_cons_succ] using hpk
      | succ i' =>
        cases j with
        | zero => omega
        | succ j' =>
          simp only [cam_run, List.getElem?_cons_succ] at hi hj
          obtain ⟨k, hik, hkj, hpk⟩ :=
            ih _ i' j' (Nat.lt_of_succ_lt_succ hij) hi hj
          refine ⟨k + 1, Nat.succ_lt_succ hik, Nat.succ_lt_succ hkj, ?_⟩
          simpa only [cam_run, List.getElem?_cons_succ] using hpk

/-- Witness for C1 at concrete inputs: a freshly opened controller, the state
after a successful collection, and the run `[trigger, collect, trigger]`. -/
theorem C1_trigger_single_consumable_flag_witness :
    ((trigger (open_cameras CamerasController.init)).2 = CamResult.trig_true ∧
      (trigger (trigger (open_cameras CamerasController.init)).1).2 =
        CamResult.trig_false) ∧
    (trigger (collect_pictures true ⟨true, true⟩).1).2 = CamResult.trig_true ∧
    (∃ k, 0 < k ∧ k < 2 ∧
      ((cam_run true (open_cameras CamerasController.init)
          [CamOp.trig, CamOp.coll, CamOp.trig]).2)[k]? =
        some CamResult.pictures) :=
  ⟨C1_trigger_single_consumable_flag.1 (open_cameras CamerasController.init)
      rfl rfl,
    C1_trigger_single_consumable_flag.2.1 true ⟨true, true⟩ (by decide),
    C1_trigger_single_consumable_flag.2.2 true
      [CamOp.trig, CamOp.coll, CamOp.trig]
      (open_cameras CamerasController.init) 0 2 (by decide) (by decide)
      (by decide)⟩

/-- C2 counterexample: on an opened, armed controller whose picture asset is
missing, `collect_pictures` raises `PictureNotFoundError` and the trigger is
still set after the call — the call raised without disarming. -/
theorem C2_collect_always_disarms_counterexample :
    (collect_pictures false ⟨true, true⟩).2 = CamResult.err_picture_not_found ∧
    (collect_pictures false ⟨true, true⟩).1.trigger_set = true := by
  decide

/-- C2 amended: `collect_pictures` disarms before returning normally — every
call that returns pictures leaves the trigger idle — and the error paths
raised before the trigger is cleared leave the state unchanged; consequently
the asset-lookup error path (`PictureNotFoundError`), raised while armed,
leaves the device armed, not idle. -/
theorem C2_collect_disarms_amended :
    (∀ (a : Bool) (s : CamState),
      (collect_pictures a s).2 = CamResult.pictures →
      (collect_pictures a s).1.trigger_set = false) ∧
    (∀ (a : Bool) (s : CamState),
      (collect_pictures a s).2 ≠ CamResult.pictures →
      (collect_pictures a s).1 = s) ∧
    (∀ s : CamState, s.cameras_ready = true → s.trigger_set = true →
      (collect_pictures false s).2 = CamResult.err_picture_not_found ∧
      (collect_pictures false s).1.trigger_set = true) := by
  refine ⟨?_, ?_, ?_⟩
  · intro a s h
    rcases s with ⟨cr, ts⟩
    cases a <;> cases cr <;> cases ts <;> simp_all [collect_pictures]
  · intro a s h
    rcases s with ⟨cr, ts⟩
    cases a <;> cases cr <;> cases ts <;> simp_all [collect_pictures]
  · intro s h1 h2
    rcases s with ⟨cr, ts⟩
    have hcr : cr = true := h1
    have hts : ts = true := h2
    subst hcr hts
    simp [collect_pictures]

/-- Witness for C2's amended statement at concrete inputs. -/
theorem C2_collect_disarms_amended_witness :
    (collect_pictures true ⟨true, true⟩).1.trigger_set = false ∧
    (collect_pictures true ⟨true, false⟩).1 = ⟨true, false⟩ ∧
    ((collect_pictures false ⟨true, true⟩).2 = CamResult.err_picture_not_found ∧
      (collect_pictures false ⟨true, true⟩).1.trigger_set = true) :=
  ⟨C2_collect_disarms_amended.1 true ⟨true, true⟩ (by decide),
    C2_collect_disarms_amended.2.1 true ⟨true, false⟩ (by decide),
    C2_collect_disarms_amended.2.2 ⟨true, true⟩ rfl rfl⟩

/-- C3: `collect_pictures` with no prior trigger always fails — with
`PictureNotReadyError` when the cameras are open, while when they are not
open the open-state check comes first and both `trigger` and
`collect_pictures` fail with `CamerasNotReadyError` before any trigger-state
check. -/
theorem C3_collect_error_precedence :
    (∀ (a : Bool) (s : CamState), s.cameras_ready = true →
      s.trigger_set = false →
      (collect_pictures a s).2 = CamResult.err_picture_not_ready) ∧
    (∀ (a : Bool) (s : CamState), s.cameras_ready = false →
      (collect_pictures a s).2 = CamResult.err_cameras_not_ready ∧
      (trigger s).2 = CamResult.err_cameras_not_ready) := by
  constructor
  · intro a s h1 h2
    rcases s with ⟨cr, ts⟩
    have hcr : cr = true := h1
    have hts : ts = false := h2
    subst hcr hts
    cases a <;> simp [collect_pictures]
  · intro a s h1
    rcases s with ⟨cr, ts⟩
    have hcr : cr = false := h1
    subst hcr
    cases a <;> cases ts <;> simp [collect_pictures, trigger]

/-- Witness for C3 at concrete inputs: an open idle controller and a closed
armed one. -/
theorem C3_collect_error_precedence_witness :
    (collect_pictures true ⟨true, false⟩).2 = CamResult.err_picture_not_ready ∧
    ((collect_pictures true ⟨false, true⟩).2 = CamResult.err_cameras_not_ready ∧
      (trigger ⟨false, true⟩).2 = CamResult.err_cameras_not_ready) :=
  ⟨C3_collect_error_precedence.1 true ⟨true, false⟩ rfl rfl,
    C3_collect_error_precedence.2 true ⟨false, true⟩ rfl⟩

/-- C8: the capture loop treats `PictureNotReadyError` as a transient
per-iteration failure: the `except` clause maps it to a logged warning
followed by the cadence sleep, that outcome continues the loop, and no
iteration of the capture loop ever terminates the loop with an escaped
`PictureNotReadyError`. -/
theorem C8_picture_not_ready_transient :
    (∀ (a : Bool) (s : CamState),
      (capture_cycle a s).2 = LoopStep.send_and_sleep ∨
      (capture_cycle a s).2 = LoopStep.warn_and_sleep ∨
      (capture_cycle a s).2 = LoopStep.raised CamResult.err_cameras_not_ready ∨
      (capture_cycle a s).2 = LoopStep.raised CamResult.err_picture_not_found) ∧
    capture_except_handler (.error CamResult.err_picture_not_ready) =
      LoopStep.warn_and_sleep ∧
    loop_continues LoopStep.warn_and_sleep = true := by
  refine ⟨?_, rfl, rfl⟩
  intro a s
  rcases s with ⟨cr, ts⟩
  cases a <;> cases cr <;> cases ts <;> decide

/-! ## Signal processing (C5, C6, C10) -/

/-- Helper: folding additions of `f` over a list equals the initial value plus
the sum of the mapped list. -/
theorem foldl_add_map (l : List ℕ) (f : ℕ → ℚ) (init : ℚ) :
    l.foldl (fun acc i => acc + f i) init = init + (l.map f).sum := by
  induction l generalizing init with
  | nil => simp
  | cons x xs ih => simp [ih, add_assoc]

/-- Helper: the sum of `xs.getD (i + j) 0` over `j < w` is the sum of the
length-`w` window of `xs` starting at `i`, when the window is in bounds. -/
theorem sum_range_getD_eq_window (xs : List ℚ) :
    ∀ (w i : ℕ), i + w ≤ xs.length →
      ((List.range w).map (fun j => xs.getD (i + j) 0)).sum =
        ((xs.drop i).take w).sum := by
  intro w
  induction w with
  | zero => intro i _; simp
  | succ w ih =>
    intro i h
    rw [List.range_succ, List.map_append, List.sum_append, List.take_succ,
      List.sum_append, ih i (by omega)]
    have hb : i + w < xs.length := by omega
    simp [List.getElem?_drop, List.getD_eq_getElem xs 0 hb,
      List.getElem?_eq_getElem hb]

/-- Helper: indexing a map over `List.range`. -/
theorem getD_map_range (n i : ℕ) (f : ℕ → ℚ) (h : i < n) :
    ((List.range n).map f).getD i 0 = f i := by
  rw [List.getD_eq_getElem?_getD, List.getElem?_map, List.getElem?_range h]
  rfl

/-- Helper: closed form of one entry of the valid-mode convolution with the
uniform kernel: the mean of the window. -/
theorem convolve_valid_uniform_entry (data : List ℚ) (w i : ℕ)
    (hi : i + w ≤ data.length) :
    ((List.range w).map
      (fun j => data.getD (i + j) 0 *
        (List.replicate w ((1 : ℚ) / w)).getD (w - 1 - j) 0)).sum =
      ((data.drop i).take w).sum / w := by
  have hker : ∀ j ∈ List.range w,
      data.getD (i + j) 0 *
          (List.replicate w ((1 : ℚ) / w)).getD (w - 1 - j) 0 =
        data.getD (i + j) 0 * (1 / w) := by
    intro j hj
    have hjw : j < w := List.mem_range.mp hj
    have : w - 1 - j < w := by omega
    rw [List.getD_eq_getElem?_getD, List.getD_eq_getElem?_getD,
      List.getElem?_replicate, if_pos this]
    rfl
  rw [List.map_congr_left hker, List.sum_map_mul_right,
    sum_range_getD_eq_window data w i hi, mul_one_div]

/-- C5: `moving_average` returns the input unchanged when there are fewer
samples than the window size, and otherwise returns one output per window
position — `len - w + 1` of them — each the arithmetic mean of its window of
`w` consecutive inputs. -/
theorem C5_moving_average_spec :
    (∀ (data : List ℚ) (w : ℕ), data.length < w →
      moving_average data w = data) ∧
    (∀ (data : List ℚ) (w : ℕ), 0 < w → w ≤ data.length →
      (moving_average data w).length = data.length - w + 1 ∧
      ∀ i : ℕ, i < data.length - w + 1 →
        (moving_average data w).getD i 0 = ((data.drop i).take w).sum / w) := by
  constructor
  · intro data w h
    rw [moving_average, if_pos h]
  · intro data w hw hlen
    have hnot : ¬ data.length < w := by omega
    rw [moving_average, if_neg hnot]
    constructor
    · simp only [convolve_valid, List.length_map, List.length_range,
        List.length_replicate]
      omega
    · intro i hi
      have hi2 : i + w ≤ data.length := by omega
      rw [convolve_valid]
      simp only [List.length_replicate]
      rw [getD_map_range _ _ _ (by omega)]
      exact convolve_valid_uniform_entry data w i hi2

/-- Witness for C5 at concrete inputs: a short list left unchanged, and the
window means of `[1,2,3,4,5]` with window 3. -/
theorem C5_moving_average_spec_witness :
    moving_average [1, 2] 5 = [1, 2] ∧
    (moving_average [1, 2, 3, 4, 5] 3).length = 5 - 3 + 1 ∧
    (moving_average [1, 2, 3, 4, 5] 3).getD 1 0 =
      ((([1, 2, 3, 4, 5] : List ℚ).drop 1).take 3).sum / 3 :=
  ⟨C5_moving_average_spec.1 [1, 2] 5 (by norm_num),
    (C5_moving_average_spec.2 [1, 2, 3, 4, 5] 3 (by norm_num) (by norm_num)).1,
    (C5_moving_average_spec.2 [1, 2, 3, 4, 5] 3 (by norm_num)
      (by norm_num)).2 1 (by norm_num)⟩

/-- Helper: the error/success split of `calculate_displacement`, with the
accumulator written as a sum over consecutive pairs. -/
theorem calculate_displacement_ok (v : List ℚ) (t : ℚ) (h : 2 ≤ v.length) :
    calculate_displacement v t = .ok (py_round
      (((List.range (v.length - 1)).map
        (fun i => 1/2 * (v.getD i 0 + v.getD (i + 1) 0) * t)).sum)
      DECIMAL_PLACES) := by
  rw [calculate_displacement, if_neg (by omega)]
  congr 1
  congr 1
  rw [foldl_add_map, zero_add, List.range'_eq_map_range, List.map_map]
  refine congrArg List.sum (List.map_congr_left ?_)
  intro i _
  simp only [Function.comp_apply]
  have h1 : 1 + i - 1 = i := by omega
  rw [h1, Nat.add_comm 1 i]

example : calculate_displacement_ok [1,2,3] 1 (by norm_num) =
  calculate_displacement_ok [1,2,3] 1 (by norm_num) := rfl

/-- C6: `calculate_displacement` fails with `ValueError` exactly when given
fewer than two samples; otherwise it returns the sum over consecutive pairs of
`0.5 * (v[i-1] + v[i]) * dt`, rounded to three decimal places; and on
`[0.1, 0.2, 0.3, 0.4]` with `dt = 1` it returns `0.75`. -/
theorem C6_calculate_displacement_spec :
    (∀ (v : List ℚ) (t : ℚ), v.length < 2 →
      calculate_displacement v t =
        .error "Insufficient data to calculate displacement.") ∧
    (∀ (v : List ℚ) (t : ℚ), 2 ≤ v.length →
      calculate_displacement v t = .ok (py_round
        (((List.range (v.length - 1)).map
          (fun i => 1/2 * (v.getD i 0 + v.getD (i + 1) 0) * t)).sum)
        DECIMAL_PLACES)) ∧
    calculate_displacement [1/10, 2/10, 3/10, 4/10] 1 = .ok (3/4) := by
  refine ⟨?_, ?_, ?_⟩
  · intro v t h
    rw [calculate_displacement, if_pos h]
  · intro v t h
    exact calculate_displacement_ok v t h
  · norm_num [calculate_displacement, List.range', List.getD, py_round,
      round_half_even, DECIMAL_PLACES]

/-- Witness for C6 at concrete inputs: a one-sample failure and a two-sample
success. -/
theorem C6_calculate_displacement_spec_witness :
    calculate_displacement [(1 : ℚ)] 1 =
      .error "Insufficient data to calculate displacement." ∧
    calculate_displacement [(1 : ℚ), 2] 1 = .ok (py_round
      (((List.range ([(1 : ℚ), 2].length - 1)).map
        (fun i => 1/2 * ([(1 : ℚ), 2].getD i 0 + [(1 : ℚ), 2].getD (i + 1) 0) *
          1)).sum)
      DECIMAL_PLACES) :=
  ⟨C6_calculate_displacement_spec.1 [1] 1 (by norm_num),
    C6_calculate_displacement_spec.2.1 [1, 2] 1 (by norm_num)⟩

/-- Helper: the successful path of `get_velocity_and_displacement`: with at
least two smoothed samples it reports the rounded last smoothed value and the
trapezoidal displacement taken with the whole measurement interval as the
per-pair time step, which therefore factors out of the sum. -/
theorem get_velocity_and_displacement_ok (samples : List ℚ) (T : ℚ)
    (h : 2 ≤ (moving_average samples 3).length) :
    get_velocity_and_displacement samples T = .ok
      (py_round ((moving_average samples 3).getD
        ((moving_average samples 3).length - 1) 0) DECIMAL_PLACES,
       py_round (T * ((List.range ((moving_average samples 3).length - 1)).map
          (fun i => 1/2 * ((moving_average samples 3).getD i 0 +
            (moving_average samples 3).getD (i + 1) 0))).sum)
        DECIMAL_PLACES) := by
  have hne : (moving_average samples 3).length - 1 <
      (moving_average samples 3).length := by omega
  have hlast : (moving_average samples 3).getLast? =
      some ((moving_average samples 3).getD
        ((moving_average samples 3).length - 1) 0) := by
    rw [List.getLast?_eq_getElem?, List.getElem?_eq_getElem hne,
      List.getD_eq_getElem _ 0 hne]
  have hsum : ((List.range ((moving_average samples 3).length - 1)).map
        (fun i => 1/2 * ((moving_average samples 3).getD i 0 +
          (moving_average samples 3).getD (i + 1) 0) * T)).sum =
      T * ((List.range ((moving_average samples 3).length - 1)).map
        (fun i => 1/2 * ((moving_average samples 3).getD i 0 +
          (moving_average samples 3).getD (i + 1) 0))).sum := by
    rw [List.sum_map_mul_right]
    exact mul_comm _ _
  unfold get_velocity_and_displacement
  dsimp only
  rw [hlast, calculate_displacement_ok _ T h, hsum]

/-- C10: `get_velocity_and_displacement` hands the whole measurement interval
`T` to `calculate_displacement` as the per-pair time step, so the reported
displacement is `T` times the sum of `0.5 * (v[i-1] + v[i])` over the
smoothed samples (rounded to `DECIMAL_PLACES`), not scaled by the inter-sample
spacing `1/66`: the velocities `[0.1, 0.2, 0.3, 0.4, 0.5]` over a 1-second
interval report displacement `0.6`, whereas scaling the same sum by `1/66`
would give `0.009`. -/
theorem C10_displacement_dt_whole_interval :
    (∀ (samples : List ℚ) (T : ℚ), 2 ≤ (moving_average samples 3).length →
      get_velocity_and_displacement samples T = .ok
        (py_round ((moving_average samples 3).getD
          ((moving_average samples 3).length - 1) 0) DECIMAL_PLACES,
         py_round (T * ((List.range ((moving_average samples 3).length - 1)).map
            (fun i => 1/2 * ((moving_average samples 3).getD i 0 +
              (moving_average samples 3).getD (i + 1) 0))).sum)
          DECIMAL_PLACES)) ∧
    get_velocity_and_displacement [1/10, 2/10, 3/10, 4/10, 5/10] 1 =
      .ok (2/5, 3/5) ∧
    py_round ((1/66) * (1/2 * (1/5 + 3/10) + 1/2 * (3/10 + 2/5)))
      DECIMAL_PLACES = 9/1000 := by
  refine ⟨get_velocity_and_displacement_ok, ?_, ?_⟩
  · norm_num [get_velocity_and_displacement, moving_average, convolve_valid,
      calculate_displacement, List.range_succ, List.range', List.getD,
      py_round, round_half_even, DECIMAL_PLACES]
  · norm_num [py_round, round_half_even, DECIMAL_PLACES]

/-- Witness for C10 at a concrete input with two smoothed samples. -/
theorem C10_displacement_dt_whole_interval_witness :
    get_velocity_and_displacement [1, 2, 3, 4] 7 = .ok
      (py_round ((moving_average [1, 2, 3, 4] 3).getD
        ((moving_average [1, 2, 3, 4] 3).length - 1) 0) DECIMAL_PLACES,
       py_round (7 * ((List.range ((moving_average [1, 2, 3, 4] 3).length - 1)).map
          (fun i => 1/2 * ((moving_average [1, 2, 3, 4] 3).getD i 0 +
            (moving_average [1, 2, 3, 4] 3).getD (i + 1) 0))).sum)
        DECIMAL_PLACES) :=
  C10_displacement_dt_whole_interval.1 [1, 2, 3, 4] 7
    (by norm_num [moving_average, convolve_valid])

/-! ## Frequency scan (C4) -/

/-- Helper: `cex_disp` is monotone, so along the scan's decreasing candidate
frequencies its displacement decreases monotonically. -/
theorem cex_disp_monotone : ∀ x y : ℚ, x ≤ y → cex_disp x ≤ cex_disp y := by
  intro x y h
  simpa [cex_disp] using h

/-- Helper: extra fuel beyond what the remaining candidates need does not
change the result of the frequency scan. -/
theorem find_optimal_frequency_go_fuel (disp : ℚ → ℚ) :
    ∀ (n : ℕ) (freq : ℚ) (m : ℕ), 1 ≤ n →
      freq < n * (1/20) + MINIMUN_CAMERA_FREQUENCY →
      find_optimal_frequency_go disp (m + n) freq =
        find_optimal_frequency_go disp n freq := by
  intro n
  induction n with
  | zero => intro freq m h1 _; omega
  | succ n ih =>
    intro freq m _ hfreq
    rw [show m + (n + 1) = (m + n) + 1 from rfl]
    simp only [find_optimal_frequency_go]
    by_cases h1 : disp freq ≤ CAMERAS_VERTICAL_VIEW_FIELD
    · rw [if_pos h1, if_pos h1]
    · rw [if_neg h1, if_neg h1]
      by_cases h2 : freq - 1/20 < MINIMUN_CAMERA_FREQUENCY
      · rw [if_pos h2, if_pos h2]
      · rw [if_neg h2, if_neg h2]
        cases n with
        | zero =>
          exfalso
          norm_num [MINIMUN_CAMERA_FREQUENCY] at hfreq h2
          linarith
        | succ n' =>
          apply ih (freq - 1/20) m (by omega)
          push_cast at hfreq ⊢
          linarith

/-- Helper: extra fuel does not change the iteration count of the frequency
scan either. -/
theorem find_optimal_frequency_steps_fuel (disp : ℚ → ℚ) :
    ∀ (n : ℕ) (freq : ℚ) (m : ℕ), 1 ≤ n →
      freq < n * (1/20) + MINIMUN_CAMERA_FREQUENCY →
      find_optimal_frequency_steps disp (m + n) freq =
        find_optimal_frequency_steps disp n freq := by
  intro n
  induction n with
  | zero => intro freq m h1 _; omega
  | succ n ih =>
    intro freq m _ hfreq
    rw [show m + (n + 1) = (m + n) + 1 from rfl]
    simp only [find_optimal_frequency_steps]
    by_cases h1 : disp freq ≤ CAMERAS_VERTICAL_VIEW_FIELD
    · rw [if_pos h1, if_pos h1]
    · rw [if_neg h1, if_neg h1]
      by_cases h2 : freq - 1/20 < MINIMUN_CAMERA_FREQUENCY
      · rw [if_pos h2, if_pos h2]
      · rw [if_neg h2, if_neg h2]
        cases n with
        | zero =>
          exfalso
          norm_num [MINIMUN_CAMERA_FREQUENCY] at hfreq h2
          linarith
        | succ n' =>
          have h3 := ih (freq - 1/20) m (by omega) (by push_cast at hfreq ⊢; linarith)
          rw [h3]

/-- Helper: the iteration count never exceeds the fuel. -/
theorem find_optimal_frequency_steps_le (disp : ℚ → ℚ) :
    ∀ (n : ℕ) (freq : ℚ), find_optimal_frequency_steps disp n freq ≤ n := by
  intro n
  induction n with
  | zero => intro freq; simp [find_optimal_frequency_steps]
  | succ n ih =>
    intro freq
    simp only [find_optimal_frequency_steps]
    split_ifs
    · omega
    · omega
    · have := ih (freq - 1/20)
      omega

/-- Helper: after `k ≤ 19` rejected candidates the scan sits at frequency
`1 - k/20` with fuel `20 - k`. -/
theorem find_optimal_frequency_progress (disp : ℚ → ℚ) :
    ∀ (k : ℕ), k ≤ 19 →
      (∀ j : ℕ, j < k →
        ¬(disp (1 - j * (1/20)) ≤ CAMERAS_VERTICAL_VIEW_FIELD)) →
      find_optimal_frequency disp =
        find_optimal_frequency_go disp (20 - k) (1 - k * (1/20)) := by
  intro k
  induction k with
  | zero =>
    intro _ _
    rw [find_optimal_frequency]
    norm_num
  | succ k ih =>
    intro hk hmiss
    have hk' : k ≤ 18 := by omega
    rw [ih (by omega) (fun j hj => hmiss j (by omega))]
    rw [show 20 - k = (19 - k) + 1 by omega]
    simp only [find_optimal_frequency_go]
    rw [if_neg (hmiss k (by omega))]
    have hkle : (k : ℚ) ≤ 18 := by exact_mod_cast hk'
    have hfloor : ¬(1 - (k : ℚ) * (1/20) - 1/20 < MINIMUN_CAMERA_FREQUENCY) := by
      rw [MINIMUN_CAMERA_FREQUENCY, not_lt]
      linarith
    rw [if_neg hfloor]
    have e1 : 19 - k = 20 - (k + 1) := by omega
    have e2 : 1 - (k : ℚ) * (1/20) - 1/20 = 1 - ((k + 1 : ℕ) : ℚ) * (1/20) := by
      push_cast
      ring
    rw [e1, e2]

/-- Helper: the scan returns the rounded first candidate frequency whose
displacement fits in the field of view. -/
theorem find_optimal_frequency_first_fit (disp : ℚ → ℚ) (k : ℕ) (hk : k < 20)
    (hmiss : ∀ j : ℕ, j < k →
      ¬(disp (1 - j * (1/20)) ≤ CAMERAS_VERTICAL_VIEW_FIELD))
    (hfit : disp (1 - k * (1/20)) ≤ CAMERAS_VERTICAL_VIEW_FIELD) :
    find_optimal_frequency disp = py_round (1 - k * (1/20)) DECIMAL_PLACES := by
  rw [find_optimal_frequency_progress disp k (by omega) hmiss]
  rw [show 20 - k = (19 - k) + 1 by omega]
  simp only [find_optimal_frequency_go]
  rw [if_pos hfit]

/-- C4 (amended): the scan starts at 1 s and decrements by 0.05 s; it returns
the rounded first candidate whose measured displacement fits in the field of
view — in particular it returns 1.0 when the displacement at 1.0 equals the
field of view exactly; it returns the configured floor when every candidate is
rejected and the scan reaches a non-positive value; and from the start value it
needs at most 20 iterations — fuel or iteration budget beyond 20 is never
used. -/
theorem C4_frequency_scan_amended :
    (∀ disp : ℚ → ℚ, disp 1 = CAMERAS_VERTICAL_VIEW_FIELD →
      find_optimal_frequency disp = 1) ∧
    (∀ (disp : ℚ → ℚ) (k : ℕ), k < 20 →
      (∀ j : ℕ, j < k →
        ¬(disp (1 - j * (1/20)) ≤ CAMERAS_VERTICAL_VIEW_FIELD)) →
      disp (1 - k * (1/20)) ≤ CAMERAS_VERTICAL_VIEW_FIELD →
      find_optimal_frequency disp = py_round (1 - k * (1/20)) DECIMAL_PLACES) ∧
    (∀ disp : ℚ → ℚ,
      (∀ k : ℕ, k < 20 →
        ¬(disp (1 - k * (1/20)) ≤ CAMERAS_VERTICAL_VIEW_FIELD)) →
      find_optimal_frequency disp = MINIMUN_CAMERA_FREQUENCY) ∧
    (∀ (disp : ℚ → ℚ) (m : ℕ),
      find_optimal_frequency_go disp (m + 20) 1 = find_optimal_frequency disp) ∧
    (∀ (disp : ℚ → ℚ) (m : ℕ),
      find_optimal_frequency_steps disp (m + 20) 1 ≤ 20) := by
  refine ⟨?_, ?_, ?_, ?_, ?_⟩
  · intro disp hdisp
    have hfit : disp (1 - (0 : ℕ) * (1/20)) ≤ CAMERAS_VERTICAL_VIEW_FIELD := by
      norm_num [hdisp]
    have h := find_optimal_frequency_first_fit disp 0 (by omega)
      (fun j hj => absurd hj (by omega)) hfit
    rw [h]
    norm_num [py_round, round_half_even, DECIMAL_PLACES]
  · intro disp k hk hmiss hfit
    exact find_optimal_frequency_first_fit disp k hk hmiss hfit
  · intro disp h
    rw [find_optimal_frequency_progress disp 19 (by omega)
      (fun j hj => h j (by omega))]
    rw [show (20 - 19 : ℕ) = 0 + 1 from rfl]
    simp only [find_optimal_frequency_go]
    rw [if_neg (h 19 (by omega))]
    rw [if_pos (by push_cast; norm_num [MINIMUN_CAMERA_FREQUENCY])]
  · intro disp m
    apply find_optimal_frequency_go_fuel disp 20 1 m (by omega)
    push_cast
    norm_num [MINIMUN_CAMERA_FREQUENCY]
  · intro disp m
    rw [find_optimal_frequency_steps_fuel disp 20 1 m (by omega)
      (by push_cast; norm_num [MINIMUN_CAMERA_FREQUENCY])]
    exact find_optimal_frequency_steps_le disp 20 1

/-- C4 counterexample to the literal step bound: for the strictly monotone
displacement function `cex_disp` (decreasing along the scan, see
`cex_disp_monotone`) the scan performs exactly 20 displacement measurements —
with fuel 20 and with surplus fuel 25 alike — and returns the floor, while the
claimed bound `(1.0 - floor)/0.05` is `19.98 < 20`. -/
theorem C4_step_bound_counterexample :
    find_optimal_frequency_steps cex_disp 20 1 = 20 ∧
    find_optimal_frequency_steps cex_disp 25 1 = 20 ∧
    find_optimal_frequency cex_disp = MINIMUN_CAMERA_FREQUENCY ∧
    (1 - MINIMUN_CAMERA_FREQUENCY) / (1/20) < 20 := by
  refine ⟨?_, ?_, ?_, ?_⟩ <;>
    norm_num [find_optimal_frequency_steps, find_optimal_frequency,
      find_optimal_frequency_go, cex_disp, CAMERAS_VERTICAL_VIEW_FIELD,
      MINIMUN_CAMERA_FREQUENCY]

/-- Witness for C4's amended statement at concrete displacement functions:
an exact-fit at 1.0, a first fit at the third candidate 0.9, an all-miss run
hitting the floor, and surplus-fuel runs. -/
theorem C4_frequency_scan_amended_witness :
    find_optimal_frequency (fun _ => (25 : ℚ)) = 1 ∧
    find_optimal_frequency (fun f => if f ≤ 9/10 then (10 : ℚ) else 30) =
      py_round (1 - (2 : ℕ) * (1/20)) DECIMAL_PLACES ∧
    find_optimal_frequency (fun _ => (30 : ℚ)) = MINIMUN_CAMERA_FREQUENCY ∧
    find_optimal_frequency_go (fun _ => (25 : ℚ)) (3 + 20) 1 =
      find_optimal_frequency (fun _ => (25 : ℚ)) ∧
    find_optimal_frequency_steps (fun _ => (25 : ℚ)) (3 + 20) 1 ≤ 20 :=
  ⟨C4_frequency_scan_amended.1 (fun _ => 25) rfl,
    C4_frequency_scan_amended.2.1 (fun f => if f ≤ 9/10 then 10 else 30) 2
      (by omega)
      (by intro j hj; interval_cases j <;> norm_num [CAMERAS_VERTICAL_VIEW_FIELD])
      (by norm_num [CAMERAS_VERTICAL_VIEW_FIELD]),
    C4_frequency_scan_amended.2.2.1 (fun _ => 30)
      (fun k _ => by norm_num [CAMERAS_VERTICAL_VIEW_FIELD]),
    C4_frequency_scan_amended.2.2.2.1 (fun _ => 25) 3,
    C4_frequency_scan_amended.2.2.2.2 (fun _ => 25) 3⟩

/-! ## Per-image displacement bookkeeping (C7) and velocity reads (C9) -/

/-- C7: evaluating the capture loop's bookkeeping at a concrete schedule
(start time 0; green image at time 10 with velocity 2, blue image at time 20
with velocity 3).  As the code behaves — the enclosing `last_capture_time` is
never reassigned, since the assignment inside `get_light` rebinds only the
local parameter — the blue image's displacement is `3 * (20 - 0) = 60`; under
the reference-timestamp-advances reading of the loop it would be
`3 * (20 - 10) = 30`. -/
theorem C7_displacement_reference_timestamp_bug :
    capture_images_lights 0
        [⟨LightType.green, 2, 10⟩, ⟨LightType.blue, 3, 20⟩] =
      [⟨LightType.green, 2, 20⟩, ⟨LightType.blue, 3, 60⟩] ∧
    capture_images_lights_advancing 0
        [⟨LightType.green, 2, 10⟩, ⟨LightType.blue, 3, 20⟩] =
      [⟨LightType.green, 2, 20⟩, ⟨LightType.blue, 3, 30⟩] := by
  constructor <;>
    norm_num [capture_images_lights, capture_images_lights_advancing,
      get_light]

/-- C9 counterexample: a read before `start()` (fresh `__init__` state, thread
flag still false) whose legal random draws (`random() = 0.05 ∈ [0,1)`,
`random() = 0.5 ∈ [0,1)`, `uniform(-150,400) = 371`) take the outlier branch
returns `371`, not the initialized value `0` — even though the initialized
noisy value is `0`. -/
theorem C9_read_before_start_counterexample :
    VelocityGenerator.get_velocity ⟨1/20, 1/2, 371⟩ VelocityGenerator.init =
      371 ∧
    VelocityGenerator.init.noisy_value = 0 ∧
    VelocityGenerator.init.run_thread = false ∧
    (0 : ℚ) ≤ 1/20 ∧ (1/20 : ℚ) < 1 ∧ (0 : ℚ) ≤ 1/2 ∧ (1/2 : ℚ) < 1 ∧
    (-150 : ℚ) ≤ 371 ∧ (371 : ℚ) ≤ 400 := by
  refine ⟨?_, rfl, rfl, by norm_num, by norm_num, by norm_num, by norm_num,
    by norm_num, by norm_num⟩
  norm_num [VelocityGenerator.get_velocity, VelocityGenerator.is_outlier,
    VelocityGenerator.get_outlier_velocity,
    VelocityGenerator.OUTLIER_PROBABILITY,
    VelocityGenerator.OUTLIER_AT_ZERO_PROBABILITY, VelocityGenerator.init]

/-- C9 (amended): `get_velocity` is a total function (never raises); on any
read whose per-call outlier injection does not fire it returns the internal
noisy value — `0` on the freshly initialized state, i.e. before `start()` —
and `stop_generator` changes no field but the thread flag, so reads after
`stop()` return exactly what they returned before, again subject to the
per-call outlier injection. -/
theorem C9_read_amended :
    (∀ (d : ReadDraws) (s : VGState),
      VelocityGenerator.is_outlier d.outlier_roll = false →
      VelocityGenerator.get_velocity d s = s.noisy_value) ∧
    (VelocityGenerator.init.noisy_value = 0 ∧
      VelocityGenerator.init.run_thread = false) ∧
    (∀ d : ReadDraws, VelocityGenerator.is_outlier d.outlier_roll = false →
      VelocityGenerator.get_velocity d VelocityGenerator.init = 0) ∧
    (∀ (d : ReadDraws) (s : VGState),
      VelocityGenerator.get_velocity d (VelocityGenerator.stop_generator s) =
        VelocityGenerator.get_velocity d s) := by
  refine ⟨?_, ⟨rfl, rfl⟩, ?_, ?_⟩
  · intro d s h
    simp [VelocityGenerator.get_velocity, h]
  · intro d h
    simp [VelocityGenerator.get_velocity, h, VelocityGenerator.init]
  · intro d s
    simp [VelocityGenerator.get_velocity, VelocityGenerator.stop_generator]

/-- Witness for C9's amended statement: a non-outlier roll (`0.5`) on an
arbitrary running state and on the fresh state. -/
theorem C9_read_amended_witness :
    VelocityGenerator.get_velocity ⟨1/2, 0, 0⟩ ⟨7, 42, 5, true⟩ = 42 ∧
    VelocityGenerator.get_velocity ⟨1/2, 0, 0⟩ VelocityGenerator.init = 0 ∧
    VelocityGenerator.get_velocity ⟨1/2, 0, 0⟩
        (VelocityGenerator.stop_generator ⟨7, 42, 5, true⟩) =
      VelocityGenerator.get_velocity ⟨1/2, 0, 0⟩ ⟨7, 42, 5, true⟩ :=
  ⟨C9_read_amended.1 ⟨1/2, 0, 0⟩ ⟨7, 42, 5, true⟩
      (by norm_num [VelocityGenerator.is_outlier,
        VelocityGenerator.OUTLIER_PROBABILITY]),
    C9_read_amended.2.2.1 ⟨1/2, 0, 0⟩
      (by norm_num [VelocityGenerator.is_outlier,
        VelocityGenerator.OUTLIER_PROBABILITY]),
    C9_read_amended.2.2.2 ⟨1/2, 0, 0⟩ ⟨7, 42, 5, true⟩⟩
